import Mathlib

/-!
Verification of the growth-wheat engine (openalea-incubator/growth-wheat).

The development shallowly embeds the growth-law library
(`growthwheat/model.py`, branches `tillering_hack` and trunk) and the
simulation stepper (`growthwheat/simulation.py`, trunk) into Lean.

Conventions of the embedding:
* Python floats are modelled as exact rationals (`ℚ`).
* The float power `x ** e` with a non-integral exponent is not a rational
  operation; functions using it take an explicit power function
  `rpow : ℚ → ℚ → ℚ` as a parameter, and every theorem about them holds
  for an arbitrary such function.
* The NaN sentinel used for an undetermined final internode length is
  modelled as the `none` case of an `Option ℚ` argument, so the
  `np.isnan` test becomes a tagged branch.
* Python exceptions are modelled with `Except`; the in-place mutation of
  the stepper's `outputs` attribute is modelled by explicit state passing,
  with the state returned alongside the error on abort, mirroring the fact
  that a raised exception leaves the already performed updates in place.
-/

/-! ### Parameters (from `branches/tillering_hack/growthwheat/parameters.py`) -/

/-- Carbon molar mass (g mol-1). -/
def C_MOLAR_MASS : ℚ := 12

/-- Nitrogen molar mass (g mol-1). -/
def N_MOLAR_MASS : ℚ := 14

/-- modified_Arrhenius_equation(12)/modified_Arrhenius_equation(20). -/
def CONVERSION_FACTOR_20_TO_12 : ℚ := 0.45

/-- Mass of C (under carbohydrate form, g) in 1 g of mstruct. -/
def RATIO_SUCROSE_MSTRUCT : ℚ := 0.444

/-- Mean number of mol of C in 1 mol of the major amino acids of plants.
Source name: AMINO_ACIDS_C_RATIO. -/
def AMINO_ACIDS_RATIO_C : ℚ := 4.15

/-- Mean number of mol of N in 1 mol of the major amino acids of plants.
Source name: AMINO_ACIDS_N_RATIO. -/
def AMINO_ACIDS_RATIO_N : ℚ := 1.25

/-- End of leaf elongation in automate growth (s at 12 degrees C). -/
def te : ℚ := 300 * 3600 * 24 / 12

/-- End of internode elongation in automate growth (s at 12 degrees C). -/
def te_IN : ℚ := 210 * 3600 * 24 / 12

/-- Maximal rate of root structural dry matter growth, post flowering. -/
def VMAX_ROOTS_GROWTH_POSTFLO : ℚ := 0.015 * CONVERSION_FACTOR_20_TO_12

/-- Maximal rate of root structural dry matter growth, pre flowering. -/
def VMAX_ROOTS_GROWTH_PREFLO : ℚ := 0.015 * CONVERSION_FACTOR_20_TO_12 * 5.7

/-- Affinity coefficient of root structural dry matter growth. -/
def K_ROOTS_GROWTH : ℚ := 1250

/-- Mean contribution of carbon to root structural dry mass. -/
def RATIO_C_MSTRUCT_ROOTS : ℚ := 0.444

/-- Mean contribution of nitrogen to root structural dry mass
(the source name carries the trailing underscore). -/
def RATIO_N_MSTRUCT_ROOTS_ : ℚ := 0.005

/-! ### Growth-law library (from `branches/tillering_hack/growthwheat/model.py`) -/

/-- mstruct of the enclosed leaf from the emergence of the leaf to the end
of elongation (`calculate_delta_leaf_enclosed_mstruct_postE`, model.py:68). -/
def calculate_delta_leaf_enclosed_mstruct_postE
    (delta_leaf_pseudo_age leaf_pseudo_age leaf_pseudostem_L enclosed_mstruct
      LSSW : ℚ) : ℚ :=
  let enclosed_mstruct_max := leaf_pseudostem_L * LSSW
  if leaf_pseudo_age < te then
    (enclosed_mstruct_max - enclosed_mstruct) / (te - leaf_pseudo_age) *
      delta_leaf_pseudo_age
  else
    0

/-- mstruct of the enclosed internode from the ligulation of the leaf to the
end of elongation (`calculate_delta_internode_enclosed_mstruct_postL`,
model.py:113).  The `internode_Lmax` argument is `Option ℚ`: `none` stands
for the NaN sentinel tested by `np.isnan` in the source. -/
def calculate_delta_internode_enclosed_mstruct_postL
    (delta_internode_pseudo_age internode_pseudo_age internode_L
      internode_pseudostem_L : ℚ) (internode_Lmax : Option ℚ)
    (LSIW enclosed_mstruct : ℚ) : ℚ :=
  let enclosed_mstruct_max :=
    match internode_Lmax with
    | none => internode_L * LSIW
    | some lmax => min internode_pseudostem_L lmax * LSIW
  if internode_pseudo_age < te_IN then
    (enclosed_mstruct_max - enclosed_mstruct) /
      (te_IN - internode_pseudo_age) * delta_internode_pseudo_age
  else
    0

/-- Export of metabolite from the hidden zone towards the emerged part of
the leaf (`calculate_export`, model.py:173). -/
def calculate_export (delta_mstruct metabolite hiddenzone_mstruct : ℚ) : ℚ :=
  delta_mstruct * max 0 (metabolite / hiddenzone_mstruct)

/-- Consumption of amino acids for the calculated mstruct growth
(`calculate_s_Nstruct_amino_acids`, model.py:211). -/
def calculate_s_Nstruct_amino_acids
    (delta_hiddenzone_Nstruct delta_lamina_Nstruct delta_sheath_Nstruct : ℚ) :
    ℚ :=
  (delta_hiddenzone_Nstruct + delta_lamina_Nstruct + delta_sheath_Nstruct) /
    N_MOLAR_MASS * 1e6

/-- Consumption of sucrose for the calculated mstruct growth
(`calculate_s_mstruct_sucrose`, model.py:226). -/
def calculate_s_mstruct_sucrose
    (delta_hiddenzone_mstruct delta_lamina_mstruct delta_sheath_mstruct
      s_Nstruct_amino_acids_N : ℚ) : ℚ :=
  let s_Nstruct_amino_acids := s_Nstruct_amino_acids_N / AMINO_ACIDS_RATIO_N
  let s_mstruct_amino_acids_C := s_Nstruct_amino_acids * AMINO_ACIDS_RATIO_C
  let s_mstruct_C :=
    (delta_hiddenzone_mstruct + delta_lamina_mstruct + delta_sheath_mstruct) *
      RATIO_SUCROSE_MSTRUCT / C_MOLAR_MASS * 1e6
  s_mstruct_C - s_mstruct_amino_acids_C

/-- Root structural dry mass growth integrated over delta_t
(`calculate_roots_mstruct_growth`, model.py:261).  The float power
`conc_sucrose ** 1.8` (and `K_ROOTS_GROWTH ** 1.8`) is abstracted by the
`rpow` parameter. -/
def calculate_roots_mstruct_growth (rpow : ℚ → ℚ → ℚ)
    (sucrose amino_acids mstruct delta_t : ℚ) (opt_postflo : Bool) :
    ℚ × ℚ × ℚ × ℚ :=
  let conc_sucrose := max 0 (sucrose / mstruct)
  let Vmax :=
    if opt_postflo then VMAX_ROOTS_GROWTH_POSTFLO else VMAX_ROOTS_GROWTH_PREFLO
  let N : ℚ := 1.8
  let mstruct_C_growth :=
    rpow conc_sucrose N * Vmax /
      (rpow conc_sucrose N + rpow K_ROOTS_GROWTH N) * delta_t * mstruct
  let mstruct_growth := mstruct_C_growth * 1e-6 * C_MOLAR_MASS /
    RATIO_C_MSTRUCT_ROOTS
  let Nstruct_growth := mstruct_growth * RATIO_N_MSTRUCT_ROOTS_
  let Nstruct_N_growth :=
    min amino_acids (Nstruct_growth / N_MOLAR_MASS * 1e6)
  (mstruct_C_growth, mstruct_growth, Nstruct_growth, Nstruct_N_growth)

/-! ### Growth-law functions of the trunk model (`trunk/growthwheat/model.py`) -/

/-- Emerged lamina length (`calculate_lamina_L`, trunk model.py:191).  The
Python function raises `Warning('the leaf is shorther than the hgz')` when
`leaf_L - hgz_L <= 0`; the raise is modelled by `Except.error` carrying the
message. -/
def calculate_lamina_L (leaf_L hgz_L : ℚ) : Except String ℚ :=
  let lamina_L := leaf_L - hgz_L
  if lamina_L ≤ 0 then
    .error "the leaf is shorther than the hgz"
  else
    .ok (max 0 lamina_L)

/-! ### Simulation stepper (from `trunk/growthwheat/simulation.py`)

The trunk `simulation.py` calls functions of its companion trunk model
module (`calculate_delta_mstruct_preE`, `calculate_delta_mstruct_postE`,
`calculate_export_sucrose`, `calculate_export_amino_acids`,
`calculate_s_mstruct_sucrose` (3 arguments),
`calculate_s_mstruct_amino_acids`, a 4-argument
`calculate_roots_mstruct_growth`) and the external respiration
collaborator `RespirationModel.R_growth`.  None of these definitions is
part of the provided sources (the spec excludes the respiration model and
notes that the trunk root-growth variant is superseded), so the stepper is
embedded parametrically over them: every theorem about `Simulation.run`
holds for an arbitrary pure instantiation of these collaborators. -/

/-- Identifier of a hidden growing zone: (plant_index, axis_label,
metamer_index). -/
abbrev HzId : Type := ℕ × String × ℕ

/-- Identifier of an organ: the hiddenzone identifier extended with the
organ label (the Python tuple `hiddenzone_id + ('blade',)`). -/
abbrev OrganId : Type := HzId × String

/-- Identifier of a root compartment: (plant_index, axis_label). -/
abbrev RootId : Type := ℕ × String

/-- State record of a hiddenzone (the keys of `HIDDENZONE_INPUTS`). -/
structure HiddenzoneState where
  leaf_L : ℚ
  delta_leaf_L : ℚ
  SSLW : ℚ
  SSSW : ℚ
  leaf_is_emerged : Bool
  sucrose : ℚ
  amino_acids : ℚ
  mstruct : ℚ
deriving DecidableEq

/-- State record of an organ.  `ORGAN_INPUTS` lists `green_area`; the
sheath branch of `Simulation.run` additionally reads an `area` key, so the
record carries both. -/
structure OrganState where
  is_growing : Bool
  mstruct : ℚ
  green_area : ℚ
  area : ℚ
  sucrose : ℚ
  amino_acids : ℚ
deriving DecidableEq

/-- State record of a root compartment (the keys of `ROOT_INPUTS`). -/
structure RootState where
  sucrose : ℚ
  amino_acids : ℚ
  mstruct : ℚ
  Nstruct : ℚ
deriving DecidableEq

/-- The `inputs` attribute of a `Simulation`: three mappings keyed by
anatomical identifiers. -/
structure GrowthInputs where
  hiddenzone : HzId → Option HiddenzoneState
  organs : OrganId → Option OrganState
  roots : RootId → Option RootState

/-- The `outputs` attribute of a `Simulation` after the deep copy: the same
shape as `GrowthInputs`. -/
structure GrowthOutputs where
  hiddenzone : HzId → Option HiddenzoneState
  organs : OrganId → Option OrganState
  roots : RootId → Option RootState

/-- The model/respiration collaborators invoked by the trunk
`Simulation.run`, abstracted as pure functions (see the section comment). -/
structure GrowthModel where
  calculate_delta_mstruct_preE : ℚ → ℚ → ℚ
  calculate_delta_mstruct_postE : ℚ → ℚ → ℚ → ℚ
  calculate_export_sucrose : ℚ → ℚ → ℚ → ℚ
  calculate_export_amino_acids : ℚ → ℚ → ℚ → ℚ
  calculate_s_mstruct_sucrose : ℚ → ℚ → ℚ → ℚ
  calculate_s_mstruct_amino_acids : ℚ → ℚ → ℚ → ℚ
  R_growth : ℚ → ℚ
  calculate_roots_mstruct_growth : ℚ → ℚ → ℚ → ℚ → ℚ × ℚ × ℚ × ℚ

/-- The error raised by `Simulation.run`: the `KeyError` of a missing
organ record, carrying the offending identifier. -/
inductive RunError where
  | missingOrgan (id : OrganId)
deriving DecidableEq

/-- In-place mutation of the record stored under key `k` of a mapping
(`d[k]` fetched and mutated field by field in the Python source). -/
def updAt {α β : Type} [DecidableEq α] (f : α → Option β) (k : α)
    (g : β → β) : α → Option β :=
  fun q => if q = k then Option.map g (f k) else f q

/-- Update of the emerged organ's output record (simulation.py:136-139 and
152-156): `mstruct += delta`, `sucrose += export_sucrose`,
`amino_acids += export_amino_acids`. -/
def applyOrgan (oid : OrganId) (delta_mstruct export_sucrose
    export_amino_acids : ℚ) (out : GrowthOutputs) : GrowthOutputs :=
  { out with
    organs := updAt out.organs oid fun r =>
      { r with
        mstruct := r.mstruct + delta_mstruct,
        sucrose := r.sucrose + export_sucrose,
        amino_acids := r.amino_acids + export_amino_acids } }

/-- Update of the hiddenzone's output record (simulation.py:158-165):
consumption of sucrose and amino acids for mstruct growth, growth
respiration, and the exports towards the emerged organ. -/
def applyHz (M : GrowthModel) (k : HzId) (delta_mstruct delta_lamina_mstruct
    delta_sheath_mstruct export_sucrose export_amino_acids : ℚ)
    (out : GrowthOutputs) : GrowthOutputs :=
  let sucrose_consumption_mstruct :=
    M.calculate_s_mstruct_sucrose delta_mstruct delta_lamina_mstruct
      delta_sheath_mstruct
  let AA_consumption_mstruct :=
    M.calculate_s_mstruct_amino_acids delta_mstruct delta_lamina_mstruct
      delta_sheath_mstruct
  let Respi_growth := M.R_growth sucrose_consumption_mstruct
  { out with
    hiddenzone := updAt out.hiddenzone k fun r =>
      { r with
        mstruct := r.mstruct + delta_mstruct,
        sucrose := r.sucrose -
          (sucrose_consumption_mstruct + Respi_growth + export_sucrose),
        amino_acids := r.amino_acids -
          (AA_consumption_mstruct + export_amino_acids) } }

/-- One iteration of the hiddenzone loop of `Simulation.run`
(simulation.py:113-165).  A missing organ record is the uncaught Python
`KeyError`, modelled by `Except.error`.  All reads of current values come
from `inputs`; the `+=`/`-=` mutations act on `out`. -/
def processHz (M : GrowthModel) (inputs : GrowthInputs) (k : HzId)
    (out : GrowthOutputs) : Except RunError GrowthOutputs :=
  match inputs.hiddenzone k with
  | none => .ok out
  | some hz =>
    let delta_mstruct := M.calculate_delta_mstruct_preE hz.leaf_L
      hz.delta_leaf_L
    if hz.leaf_is_emerged then
      match inputs.organs (k, "blade") with
      | none => .error (.missingOrgan (k, "blade"))
      | some lam =>
        if lam.is_growing then
          let delta_lamina_mstruct :=
            M.calculate_delta_mstruct_postE hz.SSLW lam.mstruct lam.green_area
          let export_sucrose :=
            M.calculate_export_sucrose delta_lamina_mstruct hz.sucrose
              hz.mstruct
          let export_amino_acids :=
            M.calculate_export_amino_acids delta_lamina_mstruct hz.amino_acids
              hz.mstruct
          .ok (applyHz M k delta_mstruct delta_lamina_mstruct 0 export_sucrose
            export_amino_acids
            (applyOrgan (k, "blade") delta_lamina_mstruct export_sucrose
              export_amino_acids out))
        else
          match inputs.organs (k, "sheath") with
          | none => .error (.missingOrgan (k, "sheath"))
          | some sh =>
            let delta_sheath_mstruct :=
              M.calculate_delta_mstruct_postE hz.SSSW sh.mstruct sh.area
            let export_sucrose :=
              M.calculate_export_sucrose delta_sheath_mstruct hz.sucrose
                hz.mstruct
            let export_amino_acids :=
              M.calculate_export_amino_acids delta_sheath_mstruct
                hz.amino_acids hz.mstruct
            .ok (applyHz M k delta_mstruct 0 delta_sheath_mstruct
              export_sucrose export_amino_acids
              (applyOrgan (k, "sheath") delta_sheath_mstruct export_sucrose
                export_amino_acids out))
    else
      .ok (applyHz M k delta_mstruct 0 0 0 0 out)

/-- One iteration of the root loop of `Simulation.run`
(simulation.py:169-180).  The growth respiration is computed
(`Respi_growth`) but never applied to any root pool. -/
def processRoot (M : GrowthModel) (delta_t : ℚ) (inputs : GrowthInputs)
    (k : RootId) (out : GrowthOutputs) : GrowthOutputs :=
  match inputs.roots k with
  | none => out
  | some root =>
    let g := M.calculate_roots_mstruct_growth root.sucrose root.amino_acids
      root.mstruct delta_t
    let _Respi_growth := M.R_growth g.1
    { out with
      roots := updAt out.roots k fun r =>
        { r with
          mstruct := r.mstruct + g.2.1,
          sucrose := r.sucrose - g.1,
          Nstruct := r.Nstruct + g.2.2.1,
          amino_acids := r.amino_acids - g.2.2.2 } }

/-- The hiddenzone loop: entities are processed in the given iteration
order; an uncaught error aborts the loop, leaving the updates already
applied in place (Python's exception propagation out of the `for` loop). -/
def runHzLoop (M : GrowthModel) (inputs : GrowthInputs) :
    List HzId → GrowthOutputs → GrowthOutputs × Option RunError
  | [], out => (out, none)
  | k :: ks, out =>
    match processHz M inputs k out with
    | .ok out' => runHzLoop M inputs ks out'
    | .error e => (out, some e)

/-- The root loop: total, no error possible. -/
def runRootLoop (M : GrowthModel) (delta_t : ℚ) (inputs : GrowthInputs) :
    List RootId → GrowthOutputs → GrowthOutputs
  | [], out => out
  | k :: ks, out => runRootLoop M delta_t inputs ks
      (processRoot M delta_t inputs k out)

/-- The deep copy of the inputs into the outputs dict
(simulation.py:98). -/
def initOutputs (inputs : GrowthInputs) : GrowthOutputs :=
  { hiddenzone := inputs.hiddenzone,
    organs := inputs.organs,
    roots := inputs.roots }

/-- `Simulation.run` (simulation.py:96-180): deep-copy the inputs, run the
hiddenzone loop in the given iteration order, then (if no exception
escaped) the root loop.  The returned pair is the final `outputs`
attribute together with the escaped error, if any. -/
def Simulation.run (M : GrowthModel) (delta_t : ℚ) (inputs : GrowthInputs)
    (hzOrder : List HzId) (rootOrder : List RootId) :
    GrowthOutputs × Option RunError :=
  match runHzLoop M inputs hzOrder (initOutputs inputs) with
  | (out1, some e) => (out1, some e)
  | (out1, none) => (runRootLoop M delta_t inputs rootOrder out1, none)

/-- The mutable state of a `Simulation` object: its `inputs` and `outputs`
attributes. -/
structure SimState where
  inputs : GrowthInputs
  outputs : GrowthOutputs

/-- `Simulation.run` acting on the object state: reads `self.inputs`,
rebuilds `self.outputs`. -/
def Simulation.runState (M : GrowthModel) (delta_t : ℚ) (s : SimState)
    (hzOrder : List HzId) (rootOrder : List RootId) :
    SimState × Option RunError :=
  ({ s with
      outputs := (Simulation.run M delta_t s.inputs hzOrder rootOrder).1 },
    (Simulation.run M delta_t s.inputs hzOrder rootOrder).2)

/-! ### Derived views of the hiddenzone iteration used in the proofs -/

/-- The error, if any, raised by one hiddenzone iteration.  It depends only
on the inputs snapshot (never on the outputs being built): the two fallible
operations of the loop body are the lookups
`all_organs_inputs[lamina_id]` and `all_organs_inputs[sheath_id]`. -/
def hzErr (inputs : GrowthInputs) (k : HzId) : Option RunError :=
  match inputs.hiddenzone k with
  | none => none
  | some hz =>
    if hz.leaf_is_emerged then
      match inputs.organs (k, "blade") with
      | none => some (.missingOrgan (k, "blade"))
      | some lam =>
        if lam.is_growing then none
        else
          match inputs.organs (k, "sheath") with
          | none => some (.missingOrgan (k, "sheath"))
          | some _ => none
    else none

/-- The outputs transformation performed by one non-failing hiddenzone
iteration. -/
def hzApply (M : GrowthModel) (inputs : GrowthInputs) (k : HzId)
    (out : GrowthOutputs) : GrowthOutputs :=
  match processHz M inputs k out with
  | .ok out' => out'
  | .error _ => out

/-- Normal form of the writes of one hiddenzone iteration: an update of the
hiddenzone record under `k` and of the organ record under `(k, s)`. -/
def hzWrite (k : HzId) (s : String) (gO : OrganState → OrganState)
    (gH : HiddenzoneState → HiddenzoneState) (out : GrowthOutputs) :
    GrowthOutputs :=
  { out with
    hiddenzone := updAt out.hiddenzone k gH,
    organs := updAt out.organs (k, s) gO }

/-- The per-record update applied by `applyOrgan` to an organ output
record. -/
def organUpd (delta_mstruct export_sucrose export_amino_acids : ℚ) :
    OrganState → OrganState :=
  fun r =>
    { r with
      mstruct := r.mstruct + delta_mstruct,
      sucrose := r.sucrose + export_sucrose,
      amino_acids := r.amino_acids + export_amino_acids }

/-- The per-record update applied by `applyHz` to a hiddenzone output
record. -/
def hzUpd (M : GrowthModel) (delta_mstruct delta_lamina_mstruct
    delta_sheath_mstruct export_sucrose export_amino_acids : ℚ) :
    HiddenzoneState → HiddenzoneState :=
  fun r =>
    let sucrose_consumption_mstruct :=
      M.calculate_s_mstruct_sucrose delta_mstruct delta_lamina_mstruct
        delta_sheath_mstruct
    let AA_consumption_mstruct :=
      M.calculate_s_mstruct_amino_acids delta_mstruct delta_lamina_mstruct
        delta_sheath_mstruct
    let Respi_growth := M.R_growth sucrose_consumption_mstruct
    { r with
      mstruct := r.mstruct + delta_mstruct,
      sucrose := r.sucrose -
        (sucrose_consumption_mstruct + Respi_growth + export_sucrose),
      amino_acids := r.amino_acids -
        (AA_consumption_mstruct + export_amino_acids) }

/-- The per-record update applied to a root output record by the root loop
of `Simulation.run`. -/
def rootUpdate (M : GrowthModel) (delta_t : ℚ) (root : RootState) :
    RootState → RootState :=
  fun r =>
    let g := M.calculate_roots_mstruct_growth root.sucrose root.amino_acids
      root.mstruct delta_t
    { r with
      mstruct := r.mstruct + g.2.1,
      sucrose := r.sucrose - g.1,
      Nstruct := r.Nstruct + g.2.2.1,
      amino_acids := r.amino_acids - g.2.2.2 }

/-! ### Concrete sample data used by the witnesses and the counterexample -/

/-- A concrete instantiation of the stepper collaborators, used to
exercise `Simulation.run` on concrete snapshots.  `calculate_delta_mstruct_postE`
and the exports follow the shapes documented in the spec
(`SW * metric - previous_mstruct`, `delta * max(0, pool / mstruct)`); the
remaining fields are simple total functions. -/
def sampleModel : GrowthModel :=
  { calculate_delta_mstruct_preE := fun leaf_L delta_leaf_L =>
      leaf_L * delta_leaf_L,
    calculate_delta_mstruct_postE := fun SW previous_mstruct metric =>
      SW * metric - previous_mstruct,
    calculate_export_sucrose := fun d pool m => calculate_export d pool m,
    calculate_export_amino_acids := fun d pool m => calculate_export d pool m,
    calculate_s_mstruct_sucrose := fun a b c => a + b + c,
    calculate_s_mstruct_amino_acids := fun a b c => (a + b + c) / 2,
    R_growth := fun c => c / 4,
    calculate_roots_mstruct_growth := fun s a m dt =>
      calculate_roots_mstruct_growth (fun b _ => b) s a m dt false }

/-- Sample hiddenzone identifier (plant 1, axis MS, metamer 1). -/
def idA : HzId := (1, "MS", 1)

/-- Sample hiddenzone identifier (plant 1, axis MS, metamer 2). -/
def idB : HzId := (1, "MS", 2)

/-- Sample hiddenzone identifier (plant 2, axis MS, metamer 3). -/
def idK : HzId := (2, "MS", 3)

/-- Sample root identifier (plant 1, axis MS). -/
def idR : RootId := (1, "MS")

/-- A non-emerged hiddenzone record. -/
def hzA : HiddenzoneState :=
  { leaf_L := 2, delta_leaf_L := 3, SSLW := 1, SSSW := 1,
    leaf_is_emerged := false, sucrose := 100, amino_acids := 10, mstruct := 4 }

/-- Another non-emerged hiddenzone record. -/
def hzB : HiddenzoneState :=
  { leaf_L := 1, delta_leaf_L := 1, SSLW := 1, SSSW := 1,
    leaf_is_emerged := false, sucrose := 50, amino_acids := 5, mstruct := 2 }

/-- An emerged hiddenzone record. -/
def hzE : HiddenzoneState :=
  { leaf_L := 1, delta_leaf_L := 1, SSLW := 5, SSSW := 7,
    leaf_is_emerged := true, sucrose := 50, amino_acids := 5, mstruct := 2 }

/-- A growing lamina record. -/
def lamK : OrganState :=
  { is_growing := true, mstruct := 1, green_area := 3, area := 2,
    sucrose := 20, amino_acids := 30 }

/-- A sample root record. -/
def rootR : RootState :=
  { sucrose := 100, amino_acids := 10, mstruct := 2, Nstruct := 1 }

/-- Snapshot with two healthy (non-emerged) hiddenzones and one root. -/
def permInputs : GrowthInputs :=
  { hiddenzone := fun k =>
      if k = idA then some hzA else if k = idB then some hzB else none,
    organs := fun _ => none,
    roots := fun r => if r = idR then some rootR else none }

/-- Snapshot with one healthy hiddenzone and one emerged hiddenzone whose
blade record is missing from the organs mapping. -/
def faultInputs : GrowthInputs :=
  { hiddenzone := fun k =>
      if k = idA then some hzA else if k = idB then some hzE else none,
    organs := fun _ => none,
    roots := fun _ => none }

/-- Snapshot with one emerged hiddenzone feeding a growing lamina. -/
def bladeInputs : GrowthInputs :=
  { hiddenzone := fun k => if k = idK then some hzE else none,
    organs := fun o => if o = (idK, "blade") then some lamK else none,
    roots := fun _ => none }

/-- The outputs produced for `bladeInputs` by one hiddenzone iteration. -/
def bladeOut : GrowthOutputs :=
  hzApply sampleModel bladeInputs idK (initOutputs bladeInputs)

/-! ### Claims C3, C4, C5, C6, C10 -/

/-- C3: `calculate_delta_leaf_enclosed_mstruct_postE` returns exactly 0
whenever `leaf_pseudo_age >= te`, for every pseudostem length, lineic
weight, current enclosed mstruct and delta of pseudo-age. -/
theorem delta_leaf_enclosed_mstruct_postE_terminal
    (delta_leaf_pseudo_age leaf_pseudo_age leaf_pseudostem_L enclosed_mstruct
      LSSW : ℚ) (h : te ≤ leaf_pseudo_age) :
    calculate_delta_leaf_enclosed_mstruct_postE delta_leaf_pseudo_age
      leaf_pseudo_age leaf_pseudostem_L enclosed_mstruct LSSW = 0 := by
  unfold calculate_delta_leaf_enclosed_mstruct_postE
  simp [not_lt.mpr h]

/-- Witness for C3: at `leaf_pseudo_age = te = 2160000` the delta is 0. -/
theorem delta_leaf_enclosed_mstruct_postE_terminal_witness :
    te ≤ 2160000 ∧
      calculate_delta_leaf_enclosed_mstruct_postE 5 2160000 3 7 2 = 0 :=
  ⟨by norm_num [te],
    delta_leaf_enclosed_mstruct_postE_terminal 5 2160000 3 7 2
      (by norm_num [te])⟩

/-- C4: in `calculate_delta_internode_enclosed_mstruct_postL`, when the
final internode length is the undetermined sentinel (`none`, i.e. NaN in
the source) the growth ceiling is `internode_L * LSIW` and the returned
delta is the ordinary finite value computed from that ceiling (no NaN
reaches the result); when the final length is determined (`some lmax`) the
ceiling is `min internode_pseudostem_L lmax * LSIW`, derived from the
fitted final length. -/
theorem delta_internode_enclosed_mstruct_postL_ceiling
    (delta_internode_pseudo_age internode_pseudo_age internode_L
      internode_pseudostem_L LSIW enclosed_mstruct : ℚ) :
    calculate_delta_internode_enclosed_mstruct_postL
        delta_internode_pseudo_age internode_pseudo_age internode_L
        internode_pseudostem_L none LSIW enclosed_mstruct =
      (if internode_pseudo_age < te_IN then
        (internode_L * LSIW - enclosed_mstruct) /
          (te_IN - internode_pseudo_age) * delta_internode_pseudo_age
      else 0) ∧
    ∀ lmax : ℚ,
      calculate_delta_internode_enclosed_mstruct_postL
          delta_internode_pseudo_age internode_pseudo_age internode_L
          internode_pseudostem_L (some lmax) LSIW enclosed_mstruct =
        (if internode_pseudo_age < te_IN then
          (min internode_pseudostem_L lmax * LSIW - enclosed_mstruct) /
            (te_IN - internode_pseudo_age) * delta_internode_pseudo_age
        else 0) := by
  constructor
  · rfl
  · intro lmax
    rfl

/-- C5: `calculate_s_mstruct_sucrose` returns the total carbon demand of
the summed mstruct deltas minus the carbon equivalent of the amino-acid
(nitrogen) consumption. -/
theorem s_mstruct_sucrose_nets_out_nitrogen_carbon
    (delta_hiddenzone_mstruct delta_lamina_mstruct delta_sheath_mstruct
      s_Nstruct_amino_acids_N : ℚ) :
    calculate_s_mstruct_sucrose delta_hiddenzone_mstruct delta_lamina_mstruct
        delta_sheath_mstruct s_Nstruct_amino_acids_N =
      (delta_hiddenzone_mstruct + delta_lamina_mstruct + delta_sheath_mstruct)
          * RATIO_SUCROSE_MSTRUCT / C_MOLAR_MASS * 1e6 -
        s_Nstruct_amino_acids_N / AMINO_ACIDS_RATIO_N * AMINO_ACIDS_RATIO_C :=
  rfl

/-- C6: for every root input with `mstruct > 0` (and every power function
standing for the float `**`), the nitrogen growth returned by
`calculate_roots_mstruct_growth` equals
`min(amino_acids, Nstruct_growth / N_MOLAR_MASS * 1e6)` and therefore never
exceeds the available amino-acid pool. -/
theorem roots_mstruct_growth_nitrogen_cap (rpow : ℚ → ℚ → ℚ)
    (sucrose amino_acids mstruct delta_t : ℚ) (opt_postflo : Bool)
    (h : 0 < mstruct) :
    (calculate_roots_mstruct_growth rpow sucrose amino_acids mstruct delta_t
        opt_postflo).2.2.2 =
      min amino_acids
        ((calculate_roots_mstruct_growth rpow sucrose amino_acids mstruct
            delta_t opt_postflo).2.2.1 / N_MOLAR_MASS * 1e6) ∧
    (calculate_roots_mstruct_growth rpow sucrose amino_acids mstruct delta_t
        opt_postflo).2.2.2 ≤ amino_acids := by
  refine ⟨rfl, ?_⟩
  exact min_le_left _ _

/-- Witness for C6 at a concrete root state (power function instantiated
with multiplication-free placeholder `fun b _ => b`). -/
theorem roots_mstruct_growth_nitrogen_cap_witness :
    (0 : ℚ) < 2 ∧
      ((calculate_roots_mstruct_growth (fun b _ => b) 100 10 2 1 false).2.2.2 =
        min 10
          ((calculate_roots_mstruct_growth (fun b _ => b) 100 10 2 1
              false).2.2.1 / N_MOLAR_MASS * 1e6) ∧
      (calculate_roots_mstruct_growth (fun b _ => b) 100 10 2 1
          false).2.2.2 ≤ 10) :=
  ⟨by norm_num,
    roots_mstruct_growth_nitrogen_cap (fun b _ => b) 100 10 2 1 false
      (by norm_num)⟩

/-- C10: `calculate_lamina_L` raises exactly when `leaf_L - hgz_L <= 0`,
and otherwise returns `leaf_L - hgz_L`, which is strictly positive, so the
`max 0 _` clamp never changes the returned value. -/
theorem lamina_L_raise_iff_and_value (leaf_L hgz_L : ℚ) :
    ((∃ e, calculate_lamina_L leaf_L hgz_L = .error e) ↔
      leaf_L - hgz_L ≤ 0) ∧
    ∀ r : ℚ, calculate_lamina_L leaf_L hgz_L = .ok r →
      r = leaf_L - hgz_L ∧ 0 < r := by
  simp only [calculate_lamina_L]
  by_cases h : leaf_L - hgz_L ≤ 0
  · rw [if_pos h]
    refine ⟨⟨fun _ => h, fun _ => ⟨_, rfl⟩⟩, ?_⟩
    intro r hr
    cases hr
  · rw [if_neg h]
    have hpos : 0 < leaf_L - hgz_L := lt_of_not_le h
    refine ⟨⟨?_, fun hc => absurd hc h⟩, ?_⟩
    · rintro ⟨e, he⟩
      cases he
    · intro r hr
      have hmax : max 0 (leaf_L - hgz_L) = leaf_L - hgz_L :=
        max_eq_right hpos.le
      cases hr
      rw [hmax]
      exact ⟨rfl, hpos⟩

/-- Witness for C10: at `leaf_L = 3`, `hgz_L = 1` the function returns
`.ok 2 = .ok (3 - 1)`, and at `leaf_L = 1`, `hgz_L = 5` it raises. -/
theorem lamina_L_raise_iff_and_value_witness :
    ((2 : ℚ) = 3 - 1 ∧ (0 : ℚ) < 2) ∧
      (∃ e, calculate_lamina_L 1 5 = .error e) :=
  ⟨(lamina_L_raise_iff_and_value 3 1).2 2 (by norm_num [calculate_lamina_L]),
    (lamina_L_raise_iff_and_value 1 5).1.mpr (by norm_num)⟩

/-! ### Helper lemmas about map updates -/

theorem updAt_self {α β : Type} [DecidableEq α] (f : α → Option β) (k : α)
    (g : β → β) : updAt f k g k = (f k).map g := by
  simp [updAt]

theorem updAt_ne {α β : Type} [DecidableEq α] (f : α → Option β) (k : α)
    (g : β → β) {q : α} (h : q ≠ k) : updAt f k g q = f q := by
  simp [updAt, h]

theorem updAt_id {α β : Type} [DecidableEq α] (f : α → Option β) (k : α) :
    updAt f k id = f := by
  funext q
  by_cases h : q = k
  · subst h
    simp [updAt]
  · simp [updAt, h]

theorem updAt_comm {α β : Type} [DecidableEq α] (f : α → Option β)
    {k₁ k₂ : α} (g₁ g₂ : β → β) (h : k₁ ≠ k₂) :
    updAt (updAt f k₁ g₁) k₂ g₂ = updAt (updAt f k₂ g₂) k₁ g₁ := by
  funext q
  by_cases h1 : q = k₁
  · subst h1
    simp [updAt, h, Ne.symm h]
  · by_cases h2 : q = k₂
    · subst h2
      simp [updAt, h1, Ne.symm h]
    · simp [updAt, h1, h2]

theorem hzWrite_id (k : HzId) (s : String) (out : GrowthOutputs) :
    hzWrite k s id id out = out := by
  cases out
  simp [hzWrite, updAt_id]

theorem hzWrite_comm {k₁ k₂ : HzId} (s₁ s₂ : String)
    (gO₁ gO₂ : OrganState → OrganState)
    (gH₁ gH₂ : HiddenzoneState → HiddenzoneState) (h : k₁ ≠ k₂)
    (out : GrowthOutputs) :
    hzWrite k₁ s₁ gO₁ gH₁ (hzWrite k₂ s₂ gO₂ gH₂ out) =
      hzWrite k₂ s₂ gO₂ gH₂ (hzWrite k₁ s₁ gO₁ gH₁ out) := by
  have hp : ((k₂, s₂) : OrganId) ≠ (k₁, s₁) := by
    intro hc
    exact (Ne.symm h) (congrArg Prod.fst hc)
  simp only [hzWrite]
  exact congr (congr (congrArg GrowthOutputs.mk
      (updAt_comm out.hiddenzone gH₂ gH₁ (Ne.symm h)))
      (updAt_comm out.organs gO₂ gO₁ hp)) rfl

/-! ### Decomposition of one hiddenzone iteration -/

theorem processHz_cases (M : GrowthModel) (inputs : GrowthInputs) (k : HzId)
    (out : GrowthOutputs) :
    processHz M inputs k out =
      match hzErr inputs k with
      | some e => .error e
      | none => .ok (hzApply M inputs k out) := by
  unfold hzApply
  rcases hhz : inputs.hiddenzone k with _ | hz
  · simp [processHz, hzErr, hhz]
  · cases hem : hz.leaf_is_emerged with
    | false => simp [processHz, hzErr, hhz, hem]
    | true =>
      rcases hlam : inputs.organs (k, "blade") with _ | lam
      · simp [processHz, hzErr, hhz, hem, hlam]
      · cases hg : lam.is_growing with
        | true => simp [processHz, hzErr, hhz, hem, hlam, hg]
        | false =>
          rcases hsh : inputs.organs (k, "sheath") with _ | sh
          · simp [processHz, hzErr, hhz, hem, hlam, hg, hsh]
          · simp [processHz, hzErr, hhz, hem, hlam, hg, hsh]

theorem processHz_of_ok (M : GrowthModel) (inputs : GrowthInputs) (k : HzId)
    (out : GrowthOutputs) (h : hzErr inputs k = none) :
    processHz M inputs k out = .ok (hzApply M inputs k out) := by
  rw [processHz_cases, h]

theorem processHz_of_err (M : GrowthModel) (inputs : GrowthInputs) (k : HzId)
    (out : GrowthOutputs) {e : RunError} (h : hzErr inputs k = some e) :
    processHz M inputs k out = .error e := by
  rw [processHz_cases, h]

/-! ### Normal forms of the writes of one hiddenzone iteration -/

theorem hzApply_missing_hz (M : GrowthModel) (inputs : GrowthInputs)
    (k : HzId) (out : GrowthOutputs) (hhz : inputs.hiddenzone k = none) :
    hzApply M inputs k out = out := by
  simp [hzApply, processHz, hhz]

theorem hzApply_preE (M : GrowthModel) (inputs : GrowthInputs) (k : HzId)
    (out : GrowthOutputs) {hz : HiddenzoneState}
    (hhz : inputs.hiddenzone k = some hz)
    (hem : hz.leaf_is_emerged = false) :
    hzApply M inputs k out =
      hzWrite k "blade" id
        (hzUpd M (M.calculate_delta_mstruct_preE hz.leaf_L hz.delta_leaf_L)
          0 0 0 0) out := by
  simp only [hzApply, processHz, hhz, hem]
  show applyHz M k (M.calculate_delta_mstruct_preE hz.leaf_L hz.delta_leaf_L)
      0 0 0 0 out = _
  unfold applyHz hzWrite
  rw [updAt_id]
  rfl

theorem hzApply_blade_missing (M : GrowthModel) (inputs : GrowthInputs)
    (k : HzId) (out : GrowthOutputs) {hz : HiddenzoneState}
    (hhz : inputs.hiddenzone k = some hz)
    (hem : hz.leaf_is_emerged = true)
    (hlam : inputs.organs (k, "blade") = none) :
    hzApply M inputs k out = out := by
  simp [hzApply, processHz, hhz, hem, hlam]

theorem hzApply_blade (M : GrowthModel) (inputs : GrowthInputs) (k : HzId)
    (out : GrowthOutputs) {hz : HiddenzoneState} {lam : OrganState}
    (hhz : inputs.hiddenzone k = some hz)
    (hem : hz.leaf_is_emerged = true)
    (hlam : inputs.organs (k, "blade") = some lam)
    (hg : lam.is_growing = true) :
    hzApply M inputs k out =
      hzWrite k "blade"
        (organUpd
          (M.calculate_delta_mstruct_postE hz.SSLW lam.mstruct lam.green_area)
          (M.calculate_export_sucrose
            (M.calculate_delta_mstruct_postE hz.SSLW lam.mstruct
              lam.green_area) hz.sucrose hz.mstruct)
          (M.calculate_export_amino_acids
            (M.calculate_delta_mstruct_postE hz.SSLW lam.mstruct
              lam.green_area) hz.amino_acids hz.mstruct))
        (hzUpd M (M.calculate_delta_mstruct_preE hz.leaf_L hz.delta_leaf_L)
          (M.calculate_delta_mstruct_postE hz.SSLW lam.mstruct lam.green_area)
          0
          (M.calculate_export_sucrose
            (M.calculate_delta_mstruct_postE hz.SSLW lam.mstruct
              lam.green_area) hz.sucrose hz.mstruct)
          (M.calculate_export_amino_acids
            (M.calculate_delta_mstruct_postE hz.SSLW lam.mstruct
              lam.green_area) hz.amino_acids hz.mstruct)) out := by
  simp only [hzApply, processHz, hhz, hem, hlam, hg]
  rfl

theorem hzApply_sheath_missing (M : GrowthModel) (inputs : GrowthInputs)
    (k : HzId) (out : GrowthOutputs) {hz : HiddenzoneState} {lam : OrganState}
    (hhz : inputs.hiddenzone k = some hz)
    (hem : hz.leaf_is_emerged = true)
    (hlam : inputs.organs (k, "blade") = some lam)
    (hg : lam.is_growing = false)
    (hsh : inputs.organs (k, "sheath") = none) :
    hzApply M inputs k out = out := by
  simp [hzApply, processHz, hhz, hem, hlam, hg, hsh]

theorem hzApply_sheath (M : GrowthModel) (inputs : GrowthInputs) (k : HzId)
    (out : GrowthOutputs) {hz : HiddenzoneState} {lam sh : OrganState}
    (hhz : inputs.hiddenzone k = some hz)
    (hem : hz.leaf_is_emerged = true)
    (hlam : inputs.organs (k, "blade") = some lam)
    (hg : lam.is_growing = false)
    (hsh : inputs.organs (k, "sheath") = some sh) :
    hzApply M inputs k out =
      hzWrite k "sheath"
        (organUpd
          (M.calculate_delta_mstruct_postE hz.SSSW sh.mstruct sh.area)
          (M.calculate_export_sucrose
            (M.calculate_delta_mstruct_postE hz.SSSW sh.mstruct sh.area)
            hz.sucrose hz.mstruct)
          (M.calculate_export_amino_acids
            (M.calculate_delta_mstruct_postE hz.SSSW sh.mstruct sh.area)
            hz.amino_acids hz.mstruct))
        (hzUpd M (M.calculate_delta_mstruct_preE hz.leaf_L hz.delta_leaf_L)
          0
          (M.calculate_delta_mstruct_postE hz.SSSW sh.mstruct sh.area)
          (M.calculate_export_sucrose
            (M.calculate_delta_mstruct_postE hz.SSSW sh.mstruct sh.area)
            hz.sucrose hz.mstruct)
          (M.calculate_export_amino_acids
            (M.calculate_delta_mstruct_postE hz.SSSW sh.mstruct sh.area)
            hz.amino_acids hz.mstruct)) out := by
  simp only [hzApply, processHz, hhz, hem, hlam, hg, hsh]
  rfl

theorem hzApply_shape (M : GrowthModel) (inputs : GrowthInputs) (k : HzId) :
    ∃ s gO gH, ∀ out, hzApply M inputs k out = hzWrite k s gO gH out := by
  rcases hhz : inputs.hiddenzone k with _ | hz
  · exact ⟨"blade", id, id, fun out =>
      (hzApply_missing_hz M inputs k out hhz).trans
        (hzWrite_id k "blade" out).symm⟩
  · cases hem : hz.leaf_is_emerged with
    | false => exact ⟨_, _, _, fun out => hzApply_preE M inputs k out hhz hem⟩
    | true =>
      rcases hlam : inputs.organs (k, "blade") with _ | lam
      · exact ⟨"blade", id, id, fun out =>
          (hzApply_blade_missing M inputs k out hhz hem hlam).trans
            (hzWrite_id k "blade" out).symm⟩
      · cases hg : lam.is_growing with
        | true => exact ⟨_, _, _, fun out =>
            hzApply_blade M inputs k out hhz hem hlam hg⟩
        | false =>
          rcases hsh : inputs.organs (k, "sheath") with _ | sh
          · exact ⟨"blade", id, id, fun out =>
              (hzApply_sheath_missing M inputs k out hhz hem hlam hg
                hsh).trans (hzWrite_id k "blade" out).symm⟩
          · exact ⟨_, _, _, fun out =>
              hzApply_sheath M inputs k out hhz hem hlam hg hsh⟩

theorem hzApply_comm (M : GrowthModel) (inputs : GrowthInputs)
    (k₁ k₂ : HzId) (out : GrowthOutputs) :
    hzApply M inputs k₁ (hzApply M inputs k₂ out) =
      hzApply M inputs k₂ (hzApply M inputs k₁ out) := by
  by_cases hk : k₁ = k₂
  · subst hk
    rfl
  · obtain ⟨s₁, gO₁, gH₁, h₁⟩ := hzApply_shape M inputs k₁
    obtain ⟨s₂, gO₂, gH₂, h₂⟩ := hzApply_shape M inputs k₂
    rw [h₁, h₂, h₂, h₁]
    exact hzWrite_comm s₁ s₂ gO₁ gO₂ gH₁ gH₂ hk out

theorem hzApply_roots (M : GrowthModel) (inputs : GrowthInputs) (k : HzId)
    (out : GrowthOutputs) : (hzApply M inputs k out).roots = out.roots := by
  obtain ⟨s, gO, gH, hsh⟩ := hzApply_shape M inputs k
  rw [hsh]
  rfl

/-! ### Loop lemmas -/

theorem foldl_perm {α β : Type} {f : β → α → β}
    (hc : ∀ b a₁ a₂, f (f b a₁) a₂ = f (f b a₂) a₁) {l₁ l₂ : List α}
    (h : List.Perm l₁ l₂) : ∀ b, List.foldl f b l₁ = List.foldl f b l₂ := by
  induction h with
  | nil => intro b; rfl
  | cons x _ ih =>
    intro b
    simp only [List.foldl_cons]
    exact ih (f b x)
  | swap x y l =>
    intro b
    simp only [List.foldl_cons]
    rw [hc]
  | trans _ _ ih₁ ih₂ =>
    intro b
    exact (ih₁ b).trans (ih₂ b)

theorem runHzLoop_of_all_ok (M : GrowthModel) (inputs : GrowthInputs) :
    ∀ (l : List HzId) (out : GrowthOutputs),
      (∀ k ∈ l, hzErr inputs k = none) →
      runHzLoop M inputs l out =
        (l.foldl (fun o k => hzApply M inputs k o) out, none) := by
  intro l
  induction l with
  | nil => intro out _; rfl
  | cons k ks ih =>
    intro out h
    have hk : hzErr inputs k = none := h k (List.mem_cons_self k ks)
    simp only [runHzLoop, processHz_of_ok M inputs k out hk,
      List.foldl_cons]
    exact ih _ fun k' hk' => h k' (List.mem_cons_of_mem _ hk')

theorem runHzLoop_all_ok_of_none (M : GrowthModel) (inputs : GrowthInputs) :
    ∀ (l : List HzId) (out out' : GrowthOutputs),
      runHzLoop M inputs l out = (out', none) →
      ∀ k ∈ l, hzErr inputs k = none := by
  intro l
  induction l with
  | nil =>
    intro out out' _ k hk
    simp at hk
  | cons k0 ks ih =>
    intro out out' h k hk
    rcases herr : hzErr inputs k0 with _ | e
    · rw [List.mem_cons] at hk
      rcases hk with hk | hk
      · subst hk; exact herr
      · simp only [runHzLoop, processHz_of_ok M inputs k0 out herr] at h
        exact ih _ _ h k hk
    · simp only [runHzLoop, processHz_of_err M inputs k0 out herr] at h
      simp at h

theorem runHzLoop_append_ok (M : GrowthModel) (inputs : GrowthInputs) :
    ∀ (done l : List HzId) (out : GrowthOutputs),
      (∀ k ∈ done, hzErr inputs k = none) →
      runHzLoop M inputs (done ++ l) out =
        runHzLoop M inputs l
          (done.foldl (fun o k => hzApply M inputs k o) out) := by
  intro done
  induction done with
  | nil => intro l out _; rfl
  | cons k ks ih =>
    intro l out h
    have hk : hzErr inputs k = none := h k (List.mem_cons_self k ks)
    simp only [List.cons_append, runHzLoop,
      processHz_of_ok M inputs k out hk, List.foldl_cons]
    exact ih l _ fun k' hk' => h k' (List.mem_cons_of_mem _ hk')

theorem runHzLoop_err (M : GrowthModel) (inputs : GrowthInputs) (k : HzId)
    (rest : List HzId) (out : GrowthOutputs) {e : RunError}
    (h : hzErr inputs k = some e) :
    runHzLoop M inputs (k :: rest) out = (out, some e) := by
  simp only [runHzLoop, processHz_of_err M inputs k out h]

theorem runHzLoop_roots (M : GrowthModel) (inputs : GrowthInputs) :
    ∀ (l : List HzId) (out out' : GrowthOutputs) (e : Option RunError),
      runHzLoop M inputs l out = (out', e) → out'.roots = out.roots := by
  intro l
  induction l with
  | nil =>
    intro out out' e h
    cases h
    rfl
  | cons k0 ks ih =>
    intro out out' e h
    rcases herr : hzErr inputs k0 with _ | e0
    · simp only [runHzLoop, processHz_of_ok M inputs k0 out herr] at h
      exact (ih _ _ _ h).trans (hzApply_roots M inputs k0 out)
    · simp only [runHzLoop, processHz_of_err M inputs k0 out herr] at h
      cases h
      rfl

theorem processRoot_some (M : GrowthModel) (delta_t : ℚ)
    (inputs : GrowthInputs) (k : RootId) (out : GrowthOutputs)
    {root : RootState} (hroot : inputs.roots k = some root) :
    processRoot M delta_t inputs k out =
      { out with roots := updAt out.roots k (rootUpdate M delta_t root) } := by
  simp only [processRoot, hroot]
  rfl

theorem processRoot_none (M : GrowthModel) (delta_t : ℚ)
    (inputs : GrowthInputs) (k : RootId) (out : GrowthOutputs)
    (hroot : inputs.roots k = none) :
    processRoot M delta_t inputs k out = out := by
  simp only [processRoot, hroot]

theorem processRoot_shape (M : GrowthModel) (delta_t : ℚ)
    (inputs : GrowthInputs) (k : RootId) :
    ∃ gR, ∀ out, processRoot M delta_t inputs k out =
      { out with roots := updAt out.roots k gR } := by
  rcases hroot : inputs.roots k with _ | root
  · refine ⟨id, fun out => ?_⟩
    rw [processRoot_none M delta_t inputs k out hroot, updAt_id]
  · exact ⟨rootUpdate M delta_t root, fun out =>
      processRoot_some M delta_t inputs k out hroot⟩

theorem processRoot_comm (M : GrowthModel) (delta_t : ℚ)
    (inputs : GrowthInputs) (k₁ k₂ : RootId) (out : GrowthOutputs) :
    processRoot M delta_t inputs k₁ (processRoot M delta_t inputs k₂ out) =
      processRoot M delta_t inputs k₂
        (processRoot M delta_t inputs k₁ out) := by
  by_cases hk : k₁ = k₂
  · subst hk
    rfl
  · obtain ⟨g₁, h₁⟩ := processRoot_shape M delta_t inputs k₁
    obtain ⟨g₂, h₂⟩ := processRoot_shape M delta_t inputs k₂
    rw [h₁, h₂, h₂, h₁]
    exact congrArg (GrowthOutputs.mk out.hiddenzone out.organs)
      (updAt_comm out.roots g₂ g₁ (Ne.symm hk))

theorem runRootLoop_eq_foldl (M : GrowthModel) (delta_t : ℚ)
    (inputs : GrowthInputs) :
    ∀ (l : List RootId) (out : GrowthOutputs),
      runRootLoop M delta_t inputs l out =
        l.foldl (fun o k => processRoot M delta_t inputs k o) out := by
  intro l
  induction l with
  | nil => intro out; rfl
  | cons k ks ih =>
    intro out
    simp only [runRootLoop, List.foldl_cons]
    exact ih _

theorem processRoot_roots_ne (M : GrowthModel) (delta_t : ℚ)
    (inputs : GrowthInputs) {k k' : RootId} (out : GrowthOutputs)
    (h : k ≠ k') :
    (processRoot M delta_t inputs k' out).roots k = out.roots k := by
  obtain ⟨g, hg⟩ := processRoot_shape M delta_t inputs k'
  rw [hg]
  exact updAt_ne _ _ _ h

theorem runRootLoop_not_mem (M : GrowthModel) (delta_t : ℚ)
    (inputs : GrowthInputs) :
    ∀ (l : List RootId) (out : GrowthOutputs) {k : RootId}, k ∉ l →
      (runRootLoop M delta_t inputs l out).roots k = out.roots k := by
  intro l
  induction l with
  | nil => intro out k _; rfl
  | cons k0 ks ih =>
    intro out k hk
    have hne : k ≠ k0 := fun hc => hk (hc ▸ List.mem_cons_self k0 ks)
    have hks : k ∉ ks := fun hc => hk (List.mem_cons_of_mem _ hc)
    simp only [runRootLoop]
    rw [ih _ hks]
    exact processRoot_roots_ne M delta_t inputs out hne

theorem runRootLoop_at (M : GrowthModel) (delta_t : ℚ)
    (inputs : GrowthInputs) :
    ∀ (l : List RootId) (out : GrowthOutputs) {k : RootId}
      {root : RootState}, l.Nodup → k ∈ l → inputs.roots k = some root →
      (runRootLoop M delta_t inputs l out).roots k =
        (out.roots k).map (rootUpdate M delta_t root) := by
  intro l
  induction l with
  | nil =>
    intro out k root _ hk
    simp at hk
  | cons k0 ks ih =>
    intro out k root hnd hk hroot
    rcases List.nodup_cons.mp hnd with ⟨hk0, hndks⟩
    rw [List.mem_cons] at hk
    simp only [runRootLoop]
    rcases hk with hk | hk
    · subst hk
      rw [runRootLoop_not_mem M delta_t inputs ks _ hk0,
        processRoot_some M delta_t inputs k out hroot]
      exact updAt_self _ _ _
    · have hne : k ≠ k0 := fun hc => hk0 (hc ▸ hk)
      rw [ih _ hndks hk hroot,
        processRoot_roots_ne M delta_t inputs out hne]

/-! ### Claims C1, C2, C7, C8, C9 -/

/-- C1: for every input snapshot and every collaborator instantiation,
running the Stepper with the hiddenzones and roots processed in any
permutation of their iteration order yields an identical output snapshot
(whenever the step completes; an aborted step produces no output
snapshot). -/
theorem run_iteration_order_independent (M : GrowthModel) (delta_t : ℚ)
    (inputs : GrowthInputs) {o₁ o₂ : List HzId} {r₁ r₂ : List RootId}
    (ho : List.Perm o₁ o₂) (hr : List.Perm r₁ r₂) {out : GrowthOutputs}
    (h : Simulation.run M delta_t inputs o₁ r₁ = (out, none)) :
    Simulation.run M delta_t inputs o₂ r₂ = (out, none) := by
  unfold Simulation.run at h ⊢
  rcases hl : runHzLoop M inputs o₁ (initOutputs inputs) with ⟨out1, e⟩
  rw [hl] at h
  cases e with
  | some e' =>
    have h' : ((out1, some e') : GrowthOutputs × Option RunError) =
      (out, none) := h
    simp at h'
  | none =>
    have h' : ((runRootLoop M delta_t inputs r₁ out1, none) :
      GrowthOutputs × Option RunError) = (out, none) := h
    injection h' with h1 _
    have hall : ∀ k ∈ o₁, hzErr inputs k = none :=
      runHzLoop_all_ok_of_none M inputs o₁ _ _ hl
    have hall₂ : ∀ k ∈ o₂, hzErr inputs k = none := fun k hk =>
      hall k (ho.mem_iff.mpr hk)
    have hl' := runHzLoop_of_all_ok M inputs o₁ (initOutputs inputs) hall
    rw [hl] at hl'
    injection hl' with h3 _
    have hcomm : ∀ (b : GrowthOutputs) (a₁ a₂ : HzId),
        hzApply M inputs a₂ (hzApply M inputs a₁ b) =
          hzApply M inputs a₁ (hzApply M inputs a₂ b) :=
      fun b a₁ a₂ => hzApply_comm M inputs a₂ a₁ b
    have hfold := @foldl_perm HzId GrowthOutputs
      (fun o k => hzApply M inputs k o) hcomm o₁ o₂ ho (initOutputs inputs)
    have hcommR : ∀ (b : GrowthOutputs) (a₁ a₂ : RootId),
        processRoot M delta_t inputs a₂ (processRoot M delta_t inputs a₁ b) =
          processRoot M delta_t inputs a₁
            (processRoot M delta_t inputs a₂ b) :=
      fun b a₁ a₂ => processRoot_comm M delta_t inputs a₂ a₁ b
    have hfoldR := @foldl_perm RootId GrowthOutputs
      (fun o k => processRoot M delta_t inputs k o) hcommR r₁ r₂ hr out1
    rw [runHzLoop_of_all_ok M inputs o₂ _ hall₂]
    show (runRootLoop M delta_t inputs r₂
      (List.foldl (fun o k => hzApply M inputs k o) (initOutputs inputs) o₂),
      (none : Option RunError)) = (out, none)
    rw [← hfold, ← h3, runRootLoop_eq_foldl, ← hfoldR,
      ← runRootLoop_eq_foldl, h1]

/-- Witness for C1: a concrete snapshot with two hiddenzones and one root,
run in two different orders. -/
theorem run_iteration_order_independent_witness :
    List.Perm [idA, idB] [idB, idA] ∧
      Simulation.run sampleModel 1 permInputs [idB, idA] [idR] =
        ((Simulation.run sampleModel 1 permInputs [idA, idB] [idR]).1,
          none) := by
  have hperm : List.Perm [idA, idB] [idB, idA] := List.Perm.swap idB idA []
  have hsnd : (Simulation.run sampleModel 1 permInputs [idA, idB] [idR]).2 =
      none := by decide
  have hrun : Simulation.run sampleModel 1 permInputs [idA, idB] [idR] =
      ((Simulation.run sampleModel 1 permInputs [idA, idB] [idR]).1,
        (Simulation.run sampleModel 1 permInputs [idA, idB] [idR]).2) := rfl
  rw [hsnd] at hrun
  exact ⟨hperm, run_iteration_order_independent sampleModel 1 permInputs
    hperm (List.Perm.refl [idR]) hrun⟩

/-- C2: `Simulation.run` leaves the inputs snapshot unchanged, and the
outputs it builds are a function of the inputs snapshot alone (the
pre-existing outputs attribute has no influence): the outputs snapshot is
a copy that does not alias the inputs. -/
theorem runState_inputs_unchanged (M : GrowthModel) (delta_t : ℚ)
    (s₁ s₂ : SimState) (hzOrder : List HzId) (rootOrder : List RootId)
    (h : s₁.inputs = s₂.inputs) :
    (Simulation.runState M delta_t s₁ hzOrder rootOrder).1.inputs =
      s₁.inputs ∧
    (Simulation.runState M delta_t s₁ hzOrder rootOrder).1.outputs =
      (Simulation.runState M delta_t s₂ hzOrder rootOrder).1.outputs := by
  refine ⟨rfl, ?_⟩
  simp only [Simulation.runState, h]

/-- Witness for C2: two simulation objects with the same inputs but
different pre-existing outputs. -/
theorem runState_inputs_unchanged_witness :
    (Simulation.runState sampleModel 1
      ⟨permInputs, initOutputs faultInputs⟩ [idA] [idR]).1.inputs =
        permInputs ∧
    (Simulation.runState sampleModel 1
      ⟨permInputs, initOutputs faultInputs⟩ [idA] [idR]).1.outputs =
      (Simulation.runState sampleModel 1
        ⟨permInputs, initOutputs permInputs⟩ [idA] [idR]).1.outputs :=
  runState_inputs_unchanged sampleModel 1
    ⟨permInputs, initOutputs faultInputs⟩
    ⟨permInputs, initOutputs permInputs⟩ [idA] [idR] rfl

/-- C7(amended): if a hiddenzone is emerged and its target growing organ
(the blade, or the sheath when the blade is not growing) is absent from
the organs mapping, `Simulation.run` aborts the whole time step with a
named error carrying the offending identifier; the outputs snapshot,
however, is left in a partially updated state — the deep copy of the
inputs with the updates of all entities processed before the fault — so
the all-or-nothing guarantee of the original claim does not hold. -/
theorem run_aborts_on_missing_organ (M : GrowthModel) (delta_t : ℚ)
    (inputs : GrowthInputs) (done rest : List HzId) (rootOrder : List RootId)
    (k : HzId) (hz : HiddenzoneState) (oid : OrganId)
    (hdone : ∀ k' ∈ done, hzErr inputs k' = none)
    (hhz : inputs.hiddenzone k = some hz)
    (hem : hz.leaf_is_emerged = true)
    (hfault : (inputs.organs (k, "blade") = none ∧ oid = (k, "blade")) ∨
      (∃ lam, inputs.organs (k, "blade") = some lam ∧
        lam.is_growing = false ∧ inputs.organs (k, "sheath") = none ∧
        oid = (k, "sheath"))) :
    Simulation.run M delta_t inputs (done ++ k :: rest) rootOrder =
      (done.foldl (fun o k' => hzApply M inputs k' o) (initOutputs inputs),
        some (RunError.missingOrgan oid)) := by
  have herr : hzErr inputs k = some (RunError.missingOrgan oid) := by
    rcases hfault with ⟨hb, rfl⟩ | ⟨lam, hb, hg, hs, rfl⟩
    · simp [hzErr, hhz, hem, hb]
    · simp [hzErr, hhz, hem, hb, hg, hs]
  unfold Simulation.run
  rw [runHzLoop_append_ok M inputs done (k :: rest) (initOutputs inputs)
    hdone, runHzLoop_err M inputs k rest _ herr]

/-- Witness for C7(amended): a snapshot where the second hiddenzone is
emerged with no blade record; the run aborts with the blade's identifier
and the outputs hold exactly the first hiddenzone's update. -/
theorem run_aborts_on_missing_organ_witness :
    Simulation.run sampleModel 1 faultInputs [idA, idB] [] =
      ([idA].foldl (fun o k' => hzApply sampleModel faultInputs k' o)
        (initOutputs faultInputs),
        some (RunError.missingOrgan (idB, "blade"))) :=
  run_aborts_on_missing_organ sampleModel 1 faultInputs [idA] [] [] idB hzE
    (idB, "blade") (by decide) (by decide) rfl (Or.inl ⟨rfl, rfl⟩)

/-- Counterexample to C7 as stated: on this aborted run the outputs
snapshot differs from the pristine copy of the inputs — the first
hiddenzone's record was already rewritten when the fault was raised — so
a partial half-updated output snapshot is indeed produced. -/
theorem run_partial_outputs_on_abort :
    (Simulation.run sampleModel 1 faultInputs [idA, idB] []).2 ≠ none ∧
      (Simulation.run sampleModel 1 faultInputs [idA, idB] []).1.hiddenzone
          idA ≠
        (initOutputs faultInputs).hiddenzone idA := by
  have herr : hzErr faultInputs idB =
      some (RunError.missingOrgan (idB, "blade")) := by decide
  have hdone : ∀ k' ∈ [idA], hzErr faultInputs k' = none := by decide
  have hrun : Simulation.run sampleModel 1 faultInputs [idA, idB] [] =
      ([idA].foldl (fun o k' => hzApply sampleModel faultInputs k' o)
        (initOutputs faultInputs),
        some (RunError.missingOrgan (idB, "blade"))) := by
    show Simulation.run sampleModel 1 faultInputs ([idA] ++ idB :: []) [] = _
    unfold Simulation.run
    rw [runHzLoop_append_ok sampleModel faultInputs [idA] (idB :: [])
      (initOutputs faultInputs) hdone,
      runHzLoop_err sampleModel faultInputs idB [] _ herr]
  have h1 : ([idA].foldl (fun o k' => hzApply sampleModel faultInputs k' o)
      (initOutputs faultInputs)).hiddenzone idA =
      some (hzUpd sampleModel
        (sampleModel.calculate_delta_mstruct_preE hzA.leaf_L hzA.delta_leaf_L)
        0 0 0 0 hzA) := by
    show (hzApply sampleModel faultInputs idA
      (initOutputs faultInputs)).hiddenzone idA = _
    rw [hzApply_preE sampleModel faultInputs idA (initOutputs faultInputs)
      (show faultInputs.hiddenzone idA = some hzA from rfl) rfl]
    show updAt (initOutputs faultInputs).hiddenzone idA
      (hzUpd sampleModel
        (sampleModel.calculate_delta_mstruct_preE hzA.leaf_L hzA.delta_leaf_L)
        0 0 0 0) idA = _
    rw [updAt_self]
    rfl
  rw [hrun]
  refine ⟨by simp, ?_⟩
  rw [h1]
  show some (hzUpd sampleModel
    (sampleModel.calculate_delta_mstruct_preE hzA.leaf_L hzA.delta_leaf_L)
    0 0 0 0 hzA) ≠ some hzA
  simp only [ne_eq, Option.some.injEq]
  intro heq
  have hs := congrArg HiddenzoneState.sucrose heq
  norm_num [hzUpd, sampleModel, hzA] at hs

/-- C8: in phase (b) (emerged, lamina growing) and phase (c) (emerged,
mature lamina, growing sheath), the mstruct delta that drives the exports
out of the hiddenzone is, by construction, exactly the mstruct delta added
to the downstream organ's output record: the same quantity `d` is added to
the organ's mstruct, generates the sucrose and amino-acid exports credited
to the organ, and those same exports are debited from the hiddenzone
record (`hzUpd` subtracts them together with the growth consumption and
respiration). -/
theorem hz_export_equals_organ_mstruct_delta (M : GrowthModel)
    (inputs : GrowthInputs) (k : HzId) (hz : HiddenzoneState)
    (out out' : GrowthOutputs) (hhz : inputs.hiddenzone k = some hz)
    (hem : hz.leaf_is_emerged = true)
    (hrun : processHz M inputs k out = .ok out') :
    (∀ lam orec hrec, inputs.organs (k, "blade") = some lam →
      lam.is_growing = true → out.organs (k, "blade") = some orec →
      out.hiddenzone k = some hrec →
      ∃ d es ea,
        d = M.calculate_delta_mstruct_postE hz.SSLW lam.mstruct
          lam.green_area ∧
        es = M.calculate_export_sucrose d hz.sucrose hz.mstruct ∧
        ea = M.calculate_export_amino_acids d hz.amino_acids hz.mstruct ∧
        out'.organs (k, "blade") = some { orec with
          mstruct := orec.mstruct + d,
          sucrose := orec.sucrose + es,
          amino_acids := orec.amino_acids + ea } ∧
        out'.hiddenzone k = some (hzUpd M
          (M.calculate_delta_mstruct_preE hz.leaf_L hz.delta_leaf_L) d 0
          es ea hrec)) ∧
    (∀ lam sh orec hrec, inputs.organs (k, "blade") = some lam →
      lam.is_growing = false → inputs.organs (k, "sheath") = some sh →
      out.organs (k, "sheath") = some orec → out.hiddenzone k = some hrec →
      ∃ d es ea,
        d = M.calculate_delta_mstruct_postE hz.SSSW sh.mstruct sh.area ∧
        es = M.calculate_export_sucrose d hz.sucrose hz.mstruct ∧
        ea = M.calculate_export_amino_acids d hz.amino_acids hz.mstruct ∧
        out'.organs (k, "sheath") = some { orec with
          mstruct := orec.mstruct + d,
          sucrose := orec.sucrose + es,
          amino_acids := orec.amino_acids + ea } ∧
        out'.hiddenzone k = some (hzUpd M
          (M.calculate_delta_mstruct_preE hz.leaf_L hz.delta_leaf_L) 0 d
          es ea hrec)) := by
  constructor
  · intro lam orec hrec hlam hg ho hh
    have herr : hzErr inputs k = none := by
      simp [hzErr, hhz, hem, hlam, hg]
    rw [processHz_of_ok M inputs k out herr] at hrun
    injection hrun with hout
    refine ⟨_, _, _, rfl, rfl, rfl, ?_, ?_⟩
    · rw [← hout, hzApply_blade M inputs k out hhz hem hlam hg]
      show updAt out.organs (k, "blade") _ (k, "blade") = _
      rw [updAt_self, ho]
      rfl
    · rw [← hout, hzApply_blade M inputs k out hhz hem hlam hg]
      show updAt out.hiddenzone k _ k = _
      rw [updAt_self, hh]
      rfl
  · intro lam sh orec hrec hlam hg hsh ho hh
    have herr : hzErr inputs k = none := by
      simp [hzErr, hhz, hem, hlam, hg, hsh]
    rw [processHz_of_ok M inputs k out herr] at hrun
    injection hrun with hout
    refine ⟨_, _, _, rfl, rfl, rfl, ?_, ?_⟩
    · rw [← hout, hzApply_sheath M inputs k out hhz hem hlam hg hsh]
      show updAt out.organs (k, "sheath") _ (k, "sheath") = _
      rw [updAt_self, ho]
      rfl
    · rw [← hout, hzApply_sheath M inputs k out hhz hem hlam hg hsh]
      show updAt out.hiddenzone k _ k = _
      rw [updAt_self, hh]
      rfl

/-- Witness for C8: a concrete emerged hiddenzone feeding its growing
blade. -/
theorem hz_export_equals_organ_mstruct_delta_witness :
    ∃ d es ea,
      d = sampleModel.calculate_delta_mstruct_postE hzE.SSLW lamK.mstruct
        lamK.green_area ∧
      es = sampleModel.calculate_export_sucrose d hzE.sucrose hzE.mstruct ∧
      ea = sampleModel.calculate_export_amino_acids d hzE.amino_acids
        hzE.mstruct ∧
      bladeOut.organs (idK, "blade") = some { lamK with
        mstruct := lamK.mstruct + d,
        sucrose := lamK.sucrose + es,
        amino_acids := lamK.amino_acids + ea } ∧
      bladeOut.hiddenzone idK = some (hzUpd sampleModel
        (sampleModel.calculate_delta_mstruct_preE hzE.leaf_L
          hzE.delta_leaf_L) d 0 es ea hzE) := by
  have hrun : processHz sampleModel bladeInputs idK
      (initOutputs bladeInputs) = .ok bladeOut := by
    rw [processHz_of_ok sampleModel bladeInputs idK (initOutputs bladeInputs)
      (by decide)]
    rfl
  exact (hz_export_equals_organ_mstruct_delta sampleModel bladeInputs idK
    hzE (initOutputs bladeInputs) bladeOut rfl rfl hrun).1 lamK lamK hzE
    rfl rfl rfl rfl

/-- C9: for every root record processed by a completed `Simulation.run`,
the output record is the input record with `mstruct` increased by the
growth, `sucrose` decreased by exactly the carbon consumed for mstruct
growth, `Nstruct` increased by the nitrogen growth and `amino_acids`
decreased by the nitrogen taken up — and this holds for every respiration
collaborator `R_growth`, so the growth respiration computed in the loop is
deducted from no root pool. -/
theorem run_root_respiration_not_deducted (M : GrowthModel) (delta_t : ℚ)
    (inputs : GrowthInputs) (hzOrder : List HzId) (rootOrder : List RootId)
    (k : RootId) (root : RootState) (out : GrowthOutputs)
    (h : Simulation.run M delta_t inputs hzOrder rootOrder = (out, none))
    (hnd : rootOrder.Nodup) (hmem : k ∈ rootOrder)
    (hroot : inputs.roots k = some root) :
    out.roots k = some { root with
      mstruct := root.mstruct + (M.calculate_roots_mstruct_growth
        root.sucrose root.amino_acids root.mstruct delta_t).2.1,
      sucrose := root.sucrose - (M.calculate_roots_mstruct_growth
        root.sucrose root.amino_acids root.mstruct delta_t).1,
      Nstruct := root.Nstruct + (M.calculate_roots_mstruct_growth
        root.sucrose root.amino_acids root.mstruct delta_t).2.2.1,
      amino_acids := root.amino_acids - (M.calculate_roots_mstruct_growth
        root.sucrose root.amino_acids root.mstruct delta_t).2.2.2 } := by
  unfold Simulation.run at h
  rcases hl : runHzLoop M inputs hzOrder (initOutputs inputs) with ⟨out1, e⟩
  rw [hl] at h
  cases e with
  | some e' =>
    have h' : ((out1, some e') : GrowthOutputs × Option RunError) =
      (out, none) := h
    simp at h'
  | none =>
    have h' : ((runRootLoop M delta_t inputs rootOrder out1, none) :
      GrowthOutputs × Option RunError) = (out, none) := h
    injection h' with h1 _
    have hro : out1.roots = inputs.roots :=
      runHzLoop_roots M inputs hzOrder (initOutputs inputs) out1 none hl
    rw [← h1, runRootLoop_at M delta_t inputs rootOrder out1 hnd hmem hroot,
      hro, hroot]
    rfl

/-- Witness for C9: the root of the two-hiddenzone sample snapshot. -/
theorem run_root_respiration_not_deducted_witness :
    (Simulation.run sampleModel 1 permInputs [idA, idB] [idR]).1.roots idR =
      some { rootR with
        mstruct := rootR.mstruct + (sampleModel.calculate_roots_mstruct_growth
          rootR.sucrose rootR.amino_acids rootR.mstruct 1).2.1,
        sucrose := rootR.sucrose - (sampleModel.calculate_roots_mstruct_growth
          rootR.sucrose rootR.amino_acids rootR.mstruct 1).1,
        Nstruct := rootR.Nstruct + (sampleModel.calculate_roots_mstruct_growth
          rootR.sucrose rootR.amino_acids rootR.mstruct 1).2.2.1,
        amino_acids := rootR.amino_acids -
          (sampleModel.calculate_roots_mstruct_growth rootR.sucrose
            rootR.amino_acids rootR.mstruct 1).2.2.2 } := by
  have hsnd : (Simulation.run sampleModel 1 permInputs [idA, idB] [idR]).2 =
      none := by decide
  have hrun : Simulation.run sampleModel 1 permInputs [idA, idB] [idR] =
      ((Simulation.run sampleModel 1 permInputs [idA, idB] [idR]).1,
        (Simulation.run sampleModel 1 permInputs [idA, idB] [idR]).2) := rfl
  rw [hsnd] at hrun
  exact run_root_respiration_not_deducted sampleModel 1 permInputs
    [idA, idB] [idR] idR rootR _ hrun (List.nodup_singleton idR)
    (List.mem_singleton.mpr rfl) rfl
